import Mathlib

/-!
Shallow embedding of `src/python/vrptw_solver.py` (ViaSync-Delivery-Middleware).

The script wires a CVRPTW problem into the external OR-Tools routing library
and extracts the result.  The code of the repository itself consists of:

  * `create_data_model` (lines 8-18): field passthrough plus defaults;
  * the transit callbacks `distance_callback` (37-39), `time_callback`
    (45-53) and `demand_callback` (58-61);
  * the time-window registration loops (86-95), which determine the cumul
    bounds every returned assignment must satisfy;
  * the result-extraction loop of `solve_vrptw` (107-178).

The OR-Tools search itself is an external dependency, so `solve_vrptw` is
embedded as a function of the solver's outcome: `none` models "no solution
found", `some sol` models a returned assignment (successor map plus the two
dimension cumul values).  The constraints the source registers on that
assignment are captured by `TimeFeasible` (the `SetRange` calls of lines
86-95) and `ValidNext` (the routing model's own shape guarantees: successor
values are valid visit indices, never a vehicle start).

Visit indices follow the `RoutingIndexManager`: each non-depot node is one
visit index, and every vehicle has a distinct start and end visit index,
both mapping back to the depot node.
-/

namespace VRPTW

/-- Configuration constant, line 23 of the source: 600 seconds of service
time at delivery locations. -/
def SERVICE_TIME_SECONDS : Int := 600

/-- Configuration constant, line 24: 30 minutes maximum slack. -/
def SLACK_MAX_SECONDS : Int := 30 * 60

/-- Configuration constant, line 25: 24 hours maximum cumulative time. -/
def MAX_TIME_SECONDS : Int := 24 * 60 * 60

/-- The JSON request, after parsing.  The five required fields are present;
the two optional fields are `Option`s (line 16-17 use `.get` with a
default). -/
structure InputData where
  distance_matrix : List (List Int)
  time_matrix : List (List Int)
  time_windows : List (Int × Int)
  num_vehicles : Nat
  depot : Nat
  vehicle_capacities : Option (List Int)
  demands : Option (List Int)
deriving DecidableEq

/-- The dict built by `create_data_model` (lines 8-18). -/
structure DataModel where
  distance_matrix : List (List Int)
  time_matrix : List (List Int)
  time_windows : List (Int × Int)
  num_vehicles : Nat
  depot : Nat
  vehicle_capacities : List Int
  demands : List Int
deriving DecidableEq

/-- `create_data_model` (lines 8-18): copies the required fields and fills
`vehicle_capacities` with `[1000] * num_vehicles` and `demands` with
`[1] * len(distance_matrix)` when absent.  No validation is performed. -/
def create_data_model (input : InputData) : DataModel :=
  { distance_matrix := input.distance_matrix
    time_matrix := input.time_matrix
    time_windows := input.time_windows
    num_vehicles := input.num_vehicles
    depot := input.depot
    vehicle_capacities :=
      input.vehicle_capacities.getD (List.replicate input.num_vehicles 1000)
    demands :=
      input.demands.getD (List.replicate input.distance_matrix.length 1) }

/-- A solver-internal visit index (`RoutingIndexManager`): every non-depot
node is a visit of its own, and each vehicle has a distinct start visit and
end visit, both aliasing the depot node. -/
inductive Visit where
  | node : Nat → Visit
  | start : Nat → Visit
  | stop : Nat → Visit
deriving DecidableEq

/-- `manager.IndexToNode`: non-depot visits map to their node, every
vehicle start/end visit maps to the depot node. -/
def toNode (depot : Nat) : Visit → Nat
  | Visit.node n => n
  | Visit.start _ => depot
  | Visit.stop _ => depot

/-- `routing.IsEnd`: true exactly on vehicle end visits. -/
def isEnd : Visit → Bool
  | Visit.stop _ => true
  | _ => false

/-- `distance_callback` (lines 37-39):
`distance_matrix[IndexToNode(from)][IndexToNode(to)]`. -/
def distance_callback (data : DataModel) (from_idx to_idx : Visit) : Int :=
  (data.distance_matrix.getD (toNode data.depot from_idx) []).getD
    (toNode data.depot to_idx) 0

/-- `time_callback` (lines 45-53): travel time plus the 600-second service
time whenever the destination NODE INDEX is nonzero (`if t != 0` in the
source — the literal `0`, not the `depot` field of the input). -/
def time_callback (data : DataModel) (from_idx to_idx : Visit) : Int :=
  let f := toNode data.depot from_idx
  let t := toNode data.depot to_idx
  let travel_time := (data.time_matrix.getD f []).getD t 0
  if t ≠ 0 then travel_time + SERVICE_TIME_SECONDS else travel_time

/-- `demand_callback` (lines 58-61): `demands[IndexToNode(from)]`, with no
special case for the depot or for vehicle start/end visits. -/
def demand_callback (data : DataModel) (from_idx : Visit) : Int :=
  data.demands.getD (toNode data.depot from_idx) 0

/-- An assignment returned by the external solver: the value of
`NextVar` at each visit and the value of each dimension's `CumulVar`. -/
structure Solution where
  next : Visit → Visit
  timeCumul : Visit → Int
  capCumul : Visit → Int

/-- Structural guarantees of any assignment the routing model can return:
successor values are valid visit indices of the model — never a vehicle
start (starts have no predecessor), a node index below the location count
and distinct from the depot (the depot node is not itself a generic visit),
and an end index below the vehicle count. -/
def ValidNext (data : DataModel) (sol : Solution) : Prop :=
  (∀ i w, sol.next i ≠ Visit.start w) ∧
  (∀ i l, sol.next i = Visit.node l →
    l ≠ data.depot ∧ l < data.distance_matrix.length) ∧
  (∀ i w, sol.next i = Visit.stop w → w < data.num_vehicles)

/-- A start or end visit of one of the model's vehicles — the kind of
visit index `NodeToIndex` can yield for the depot node, since the depot
aliases every vehicle's start and end. -/
@[reducible] def StartEndVisit (data : DataModel) : Visit → Prop
  | Visit.node _ => False
  | Visit.start w => w < data.num_vehicles
  | Visit.stop w => w < data.num_vehicles

/-- The time-window bounds the source registers on the assignment
(lines 86-95), which every returned solution satisfies:

  * lines 86-88 loop over ALL of `time_windows` — with no depot skip —
    and apply `SetRange(window[0], window[1])` to
    `CumulVar(NodeToIndex(location_idx))`.  For a non-depot location `l`
    this is the visit `Visit.node l`.  For the depot row the index manager
    leaves `NodeToIndex` unspecified, because the depot node aliases every
    vehicle's start and end; under the semantics in which the program
    functions at all, the call yields one of those start/end visit
    indices, so the depot's own window lands on a single start-or-end
    visit `a`.  Which one is not determined by the source, so `a` is a
    parameter ranging over every possible resolution (`StartEndVisit`);
  * lines 91-95 apply `SetRange(time_windows[0][0], time_windows[0][1])`
    to every vehicle's start and end visit — `time_windows[0]`, the window
    of NODE 0, regardless of the `depot` field. -/
@[reducible] def TimeFeasible (data : DataModel) (a : Visit) (sol : Solution) :
    Prop :=
  (∀ l, l < data.time_windows.length → l ≠ data.depot →
    ((data.time_windows.getD l (0, 0)).1 ≤ sol.timeCumul (Visit.node l) ∧
      sol.timeCumul (Visit.node l) ≤ (data.time_windows.getD l (0, 0)).2)) ∧
  (∀ v, v < data.num_vehicles →
    ((data.time_windows.getD 0 (0, 0)).1 ≤ sol.timeCumul (Visit.start v) ∧
      sol.timeCumul (Visit.start v) ≤ (data.time_windows.getD 0 (0, 0)).2 ∧
      (data.time_windows.getD 0 (0, 0)).1 ≤ sol.timeCumul (Visit.stop v) ∧
      sol.timeCumul (Visit.stop v) ≤ (data.time_windows.getD 0 (0, 0)).2)) ∧
  ((data.time_windows.getD data.depot (0, 0)).1 ≤ sol.timeCumul a ∧
    sol.timeCumul a ≤ (data.time_windows.getD data.depot (0, 0)).2)

/-- The `while not routing.IsEnd(index)` walk of lines 120-139, including
the final append of the terminal visit.  `fuel` bounds the number of steps
(a complete assignment reaches the vehicle's end in finitely many). -/
def walkVisits (sol : Solution) : Nat → Visit → List Visit
  | 0, i => [i]
  | fuel + 1, i =>
    if isEnd i then [i] else i :: walkVisits sol fuel (sol.next i)

/-- The per-route distance of lines 142-145: the sum of
`distance_matrix[route[i]][route[i+1]]` over consecutive positions. -/
def routeDistance (dm : List (List Int)) : List Nat → Int
  | a :: b :: rest => (dm.getD a []).getD b 0 + routeDistance dm (b :: rest)
  | _ => 0

/-- The same quantity phrased as the claim states it: the sum, over the
consecutive pairs of the route, of the matrix entry of the pair. -/
def consecutiveArcSum (dm : List (List Int)) (route : List Nat) : Int :=
  ((route.zip route.tail).map (fun p => (dm.getD p.1 []).getD p.2 0)).sum

/-- One entry of the `routes` array of the response (lines 154-163). -/
structure RouteOut where
  vehicle_id : Nat
  route : List Nat
  loads : List Int
  arrival_times : List Int
  distance : Int
  time : Int
  load : Int
  capacity : Int
deriving DecidableEq

/-- The success response (lines 172-178). -/
structure SuccessOut where
  routes : List RouteOut
  total_distance : Int
  total_time : Int
  total_load : Int
  num_vehicles_used : Nat
deriving DecidableEq

/-- The response of `solve_vrptw`: a success payload or an error message. -/
inductive SolveResult where
  | success : SuccessOut → SolveResult
  | error : String → SolveResult
deriving DecidableEq

/-- Error message of line 108. -/
def errNoFeasible : String := "No feasible solution found."

/-- Error message of line 170. -/
def errNoRoutes : String := "No routes found after solving"

/-- The per-vehicle body of the extraction loop (lines 116-163):
skip the vehicle when `IsVehicleUsed` is false (its start links directly to
its end); otherwise walk its visits, record node/load/arrival readouts, and
emit a route only when more than two visits were recorded.  The route time
is the end cumul minus the start cumul (lines 148-150); the route load is
the final recorded load (line 152). -/
def extractVehicle (data : DataModel) (sol : Solution) (fuel : Nat)
    (v : Nat) : Option RouteOut :=
  if sol.next (Visit.start v) = Visit.stop v then
    none
  else
    let visits := walkVisits sol fuel (Visit.start v)
    let route := visits.map (toNode data.depot)
    let loads := visits.map sol.capCumul
    let arrival_times := visits.map sol.timeCumul
    if 2 < route.length then
      some
        { vehicle_id := v
          route := route
          loads := loads
          arrival_times := arrival_times
          distance := routeDistance data.distance_matrix route
          time := sol.timeCumul (Visit.stop v) - sol.timeCumul (Visit.start v)
          load := loads.getLastD 0
          capacity := data.vehicle_capacities.getD v 0 }
    else none

/-- Lines 107-178 after the solver returned an assignment: extract every
vehicle's route, drop trivial ones, total the included routes, and fail
with `errNoRoutes` when none remain. -/
def solve_extract (data : DataModel) (sol : Solution) (fuel : Nat) :
    SolveResult :=
  let routes :=
    (List.range data.num_vehicles).filterMap (extractVehicle data sol fuel)
  if routes.isEmpty then
    SolveResult.error errNoRoutes
  else
    SolveResult.success
      { routes := routes
        total_distance := (routes.map (fun r => r.distance)).sum
        total_time := (routes.map (fun r => r.time)).sum
        total_load := (routes.map (fun r => r.load)).sum
        num_vehicles_used := routes.length }

/-- `solve_vrptw` (lines 21-178) as a function of the external solver's
outcome: `none` is the falsy `solution` of line 107. -/
def solve_vrptw (data : DataModel) (solver : Option Solution) (fuel : Nat) :
    SolveResult :=
  match solver with
  | none => SolveResult.error errNoFeasible
  | some sol => solve_extract data sol fuel

/-! ### Shape validation (claim C4)

The source performs no input validation: between JSON parsing (line 187)
and the `RoutingIndexManager` construction (line 28), the only computation
is `create_data_model`, which copies fields and fills defaults. -/

/-- The location count `N` of the request: `len(distance_matrix)`
(line 29 passes it to the index manager). -/
def numLocations (input : InputData) : Nat := input.distance_matrix.length

/-- The malformed-input conditions listed by the spec: a matrix dimension
differing from the location count, a demand or time-window array of the
wrong length, an out-of-range depot index, or a negative capacity. -/
def BadProblem (input : InputData) : Prop :=
  (∃ row ∈ input.distance_matrix, row.length ≠ numLocations input) ∨
  input.time_matrix.length ≠ numLocations input ∨
  (∃ row ∈ input.time_matrix, row.length ≠ numLocations input) ∨
  input.time_windows.length ≠ numLocations input ∨
  (∃ ds, input.demands = some ds ∧ ds.length ≠ numLocations input) ∨
  numLocations input ≤ input.depot ∨
  (∃ cs, input.vehicle_capacities = some cs ∧ ∃ c ∈ cs, c < 0)

/-- The pre-solver phase of the program (lines 187-188): parse the request
into a data model.  The source contains no validation branch here, so this
phase never produces an error. -/
def prepare (input : InputData) : Except String DataModel :=
  Except.ok (create_data_model input)

/-! ### The time-window property of the response (claim C2) -/

/-- Every node recorded in any route of the response has its recorded
arrival time inside that node's configured time window, inclusive. -/
@[reducible] def InWindows (data : DataModel) (out : SuccessOut) : Prop :=
  ∀ r ∈ out.routes, ∀ i, i < r.route.length →
    ((data.time_windows.getD (r.route.getD i 0) (0, 0)).1 ≤
        r.arrival_times.getD i 0 ∧
      r.arrival_times.getD i 0 ≤
        (data.time_windows.getD (r.route.getD i 0) (0, 0)).2)

/-! ### Concrete instances used as witnesses and counterexamples -/

/-- A two-location problem with the depot at node 0. -/
def exData0 : DataModel :=
  { distance_matrix := [[0, 3], [4, 0]]
    time_matrix := [[0, 10], [12, 0]]
    time_windows := [(0, 1000), (5, 800)]
    num_vehicles := 1
    depot := 0
    vehicle_capacities := [100]
    demands := [0, 1] }

/-- A solver assignment for `exData0`: the single vehicle visits node 1.
Arrival at node 1 is 20 (10 travel + 10 wait), return at 640
(20 + 12 travel + 600 service + 8 wait). -/
def exSol0 : Solution :=
  { next := fun i =>
      match i with
      | Visit.start _ => Visit.node 1
      | Visit.node _ => Visit.stop 0
      | Visit.stop _ => Visit.stop 0
    timeCumul := fun i =>
      match i with
      | Visit.start _ => 0
      | Visit.node _ => 20
      | Visit.stop _ => 640
    capCumul := fun i =>
      match i with
      | Visit.start _ => 0
      | Visit.node _ => 0
      | Visit.stop _ => 1 }

/-- The response the extraction produces for `exData0` and `exSol0`. -/
def exOut0 : SuccessOut :=
  { routes :=
      [{ vehicle_id := 0
         route := [0, 1, 0]
         loads := [0, 0, 1]
         arrival_times := [0, 20, 640]
         distance := 7
         time := 640
         load := 1
         capacity := 100 }]
    total_distance := 7
    total_time := 640
    total_load := 1
    num_vehicles_used := 1 }

/-- A two-location problem whose depot is node 1, not node 0.  Used to
exercise the `if t != 0` depot test of the time callback. -/
def exData1 : DataModel :=
  { distance_matrix := [[0, 3], [4, 0]]
    time_matrix := [[0, 10], [10, 0]]
    time_windows := [(0, 1000), (5000, 9000)]
    num_vehicles := 1
    depot := 1
    vehicle_capacities := [100]
    demands := [0, 0] }

/-- A two-location, TWO-vehicle problem whose depot is node 1.  Node 0's
window `[0, 5000]` is what lines 91-95 register on every vehicle start and
end; the depot's own window is the much earlier `[0, 700]`. -/
def exData5 : DataModel :=
  { distance_matrix := [[0, 3], [4, 0]]
    time_matrix := [[0, 10], [10, 0]]
    time_windows := [(0, 5000), (0, 700)]
    num_vehicles := 2
    depot := 1
    vehicle_capacities := [100, 100]
    demands := [0, 0] }

/-- An assignment for `exData5` in which vehicle 0 never leaves the depot
(both its cumuls are 0, inside both node 0's window and the depot's own
window, so it also satisfies the depot-row registration whichever
vehicle-0 visit that registration landed on) while vehicle 1 serves node 0
and returns at 800: after the depot's closing time 700, but inside the
`[0, 5000]` bound lines 91-95 actually place on its start and end.  The
cumuls are reachable: leave at 0, arrive at node 0 at 10 (travel 10, no
service because the destination node is 0), return no earlier than
10 + 10 travel + 600 service = 620, here 800 with 180 of the permitted
1800 slack. -/
def solV1 : Solution :=
  { next := fun i =>
      match i with
      | Visit.start 0 => Visit.stop 0
      | Visit.start _ => Visit.node 0
      | Visit.node _ => Visit.stop 1
      | Visit.stop _ => Visit.stop 1
    timeCumul := fun i =>
      match i with
      | Visit.start _ => 0
      | Visit.node _ => 10
      | Visit.stop 0 => 0
      | Visit.stop _ => 800
    capCumul := fun _ => 0 }

/-- The response the extraction produces for `exData5` and `solV1`. -/
def outV1 : SuccessOut :=
  { routes :=
      [{ vehicle_id := 1
         route := [1, 0, 1]
         loads := [0, 0, 0]
         arrival_times := [0, 10, 800]
         distance := 7
         time := 800
         load := 0
         capacity := 100 }]
    total_distance := 7
    total_time := 800
    total_load := 0
    num_vehicles_used := 1 }

/-- The mirror image of `solV1`: vehicle 1 idle at the depot, vehicle 0
serving node 0 and returning at 800. -/
def solV0 : Solution :=
  { next := fun i =>
      match i with
      | Visit.start 0 => Visit.node 0
      | Visit.start _ => Visit.stop 1
      | Visit.node _ => Visit.stop 0
      | Visit.stop _ => Visit.stop 0
    timeCumul := fun i =>
      match i with
      | Visit.start _ => 0
      | Visit.node _ => 10
      | Visit.stop 0 => 800
      | Visit.stop _ => 0
    capCumul := fun _ => 0 }

/-- The response the extraction produces for `exData5` and `solV0`. -/
def outV0 : SuccessOut :=
  { routes :=
      [{ vehicle_id := 0
         route := [1, 0, 1]
         loads := [0, 0, 0]
         arrival_times := [0, 10, 800]
         distance := 7
         time := 800
         load := 0
         capacity := 100 }]
    total_distance := 7
    total_time := 800
    total_load := 0
    num_vehicles_used := 1 }

/-- A problem with only the depot (one location) and two vehicles. -/
def exDataTriv : DataModel :=
  { distance_matrix := [[0]]
    time_matrix := [[0]]
    time_windows := [(0, 100)]
    num_vehicles := 2
    depot := 0
    vehicle_capacities := [1000, 1000]
    demands := [1] }

/-- A solver assignment for `exDataTriv`: no vehicle visits anything. -/
def exSolTriv : Solution :=
  { next := fun _ => Visit.stop 0
    timeCumul := fun _ => 0
    capCumul := fun _ => 0 }

/-- A malformed request: the time matrix is 1×1 while there are two
locations, the depot index 5 is out of range, and a capacity is
negative. -/
def exBad : InputData :=
  { distance_matrix := [[0, 1], [1, 0]]
    time_matrix := [[0]]
    time_windows := [(0, 1), (0, 1), (0, 1)]
    num_vehicles := 1
    depot := 5
    vehicle_capacities := some [-2]
    demands := none }

/-- A request omitting both optional fields. -/
def exInput0 : InputData :=
  { distance_matrix := [[0, 3], [4, 0]]
    time_matrix := [[0, 10], [12, 0]]
    time_windows := [(0, 1000), (5, 800)]
    num_vehicles := 2
    depot := 0
    vehicle_capacities := none
    demands := none }

/-! ### Helper lemmas about the walk and the extraction -/

lemma walkVisits_cons (sol : Solution) (fuel : Nat) (i : Visit) :
    ∃ tl, walkVisits sol fuel i = i :: tl := by
  cases fuel with
  | zero => exact ⟨[], rfl⟩
  | succ fuel =>
    cases h : isEnd i
    · exact ⟨walkVisits sol fuel (sol.next i), by simp [walkVisits, h]⟩
    · exact ⟨[], by simp [walkVisits, h]⟩

lemma mem_walkVisits {sol : Solution} {fuel : Nat} {i x : Visit}
    (hx : x ∈ walkVisits sol fuel i) : x = i ∨ ∃ y, x = sol.next y := by
  induction fuel generalizing i with
  | zero =>
    simp [walkVisits] at hx
    exact Or.inl hx
  | succ fuel ih =>
    unfold walkVisits at hx
    cases h : isEnd i <;> rw [h] at hx
    · simp only [if_neg Bool.false_ne_true, List.mem_cons] at hx
      rcases hx with hx | hx
      · exact Or.inl hx
      · rcases ih hx with h1 | h1
        · exact Or.inr ⟨i, h1⟩
        · exact Or.inr h1
    · simp at hx
      exact Or.inl hx

lemma walkVisits_map_head (sol : Solution) (fuel : Nat) (i : Visit)
    (f : Visit → Int) : ((walkVisits sol fuel i).map f).headD 0 = f i := by
  rcases walkVisits_cons sol fuel i with ⟨tl, htl⟩
  rw [htl]
  rfl

lemma walkVisits_map_last {sol : Solution} {fuel : Nat} {i j : Visit}
    (f : Visit → Int)
    (h : (walkVisits sol fuel i).getLast? = some j) :
    ((walkVisits sol fuel i).map f).getLastD 0 = f j := by
  rw [List.getLastD_eq_getLast?, List.getLast?_map, h]
  rfl

lemma routeDistance_eq_consecutiveArcSum (dm : List (List Int))
    (route : List Nat) :
    routeDistance dm route = consecutiveArcSum dm route := by
  induction route with
  | nil => rfl
  | cons a tail ih =>
    cases tail with
    | nil => rfl
    | cons b rest =>
      show (dm.getD a []).getD b 0 + routeDistance dm (b :: rest) = _
      rw [ih]
      simp [consecutiveArcSum]

lemma extractVehicle_some {data : DataModel} {sol : Solution} {fuel v : Nat}
    {r : RouteOut} (h : extractVehicle data sol fuel v = some r) :
    r.vehicle_id = v ∧
    r.route = (walkVisits sol fuel (Visit.start v)).map (toNode data.depot) ∧
    r.loads = (walkVisits sol fuel (Visit.start v)).map sol.capCumul ∧
    r.arrival_times =
      (walkVisits sol fuel (Visit.start v)).map sol.timeCumul ∧
    r.distance = routeDistance data.distance_matrix r.route ∧
    r.time = sol.timeCumul (Visit.stop v) - sol.timeCumul (Visit.start v) ∧
    2 < (walkVisits sol fuel (Visit.start v)).length := by
  unfold extractVehicle at h
  dsimp only at h
  split at h
  · cases h
  · split at h
    · next hlen =>
      injection h with h
      subst h
      refine ⟨rfl, rfl, rfl, rfl, rfl, rfl, ?_⟩
      simpa using hlen
    · cases h

lemma solve_extract_success {data : DataModel} {sol : Solution} {fuel : Nat}
    {out : SuccessOut}
    (h : solve_extract data sol fuel = SolveResult.success out) :
    out.routes =
      (List.range data.num_vehicles).filterMap (extractVehicle data sol fuel) ∧
    out.total_distance = (out.routes.map (fun r => r.distance)).sum ∧
    out.total_time = (out.routes.map (fun r => r.time)).sum ∧
    out.total_load = (out.routes.map (fun r => r.load)).sum ∧
    out.num_vehicles_used = out.routes.length ∧
    out.routes ≠ [] := by
  unfold solve_extract at h
  dsimp only at h
  split at h
  · cases h
  · next hne =>
    injection h with h
    subst h
    refine ⟨rfl, rfl, rfl, rfl, rfl, ?_⟩
    simpa [List.isEmpty_iff] using hne

lemma mem_extract_routes {data : DataModel} {sol : Solution} {fuel : Nat}
    {r : RouteOut}
    (h : r ∈ (List.range data.num_vehicles).filterMap
        (extractVehicle data sol fuel)) :
    ∃ v, v < data.num_vehicles ∧ extractVehicle data sol fuel v = some r := by
  rcases List.mem_filterMap.mp h with ⟨v, hv, hsome⟩
  exact ⟨v, List.mem_range.mp hv, hsome⟩

lemma exSol0_validNext : ValidNext exData0 exSol0 := by
  refine ⟨?_, ?_, ?_⟩
  · intro i w
    cases i <;> simp [exSol0]
  · intro i l hl
    cases i with
    | node n => simp [exSol0] at hl
    | start w =>
      simp [exSol0] at hl
      subst hl
      exact ⟨by decide, by decide⟩
    | stop w => simp [exSol0] at hl
  · intro i w hw
    cases i with
    | node n =>
      simp [exSol0] at hw
      subst hw
      decide
    | start w2 => simp [exSol0] at hw
    | stop w2 =>
      simp [exSol0] at hw
      subst hw
      decide

lemma solV1_validNext : ValidNext exData5 solV1 := by
  refine ⟨?_, ?_, ?_⟩
  · intro i w
    cases i with
    | node n => simp [solV1]
    | start n => cases n <;> simp [solV1]
    | stop n => simp [solV1]
  · intro i l hl
    cases i with
    | node n => simp [solV1] at hl
    | start n =>
      cases n with
      | zero => simp [solV1] at hl
      | succ m =>
        simp [solV1] at hl
        subst hl
        exact ⟨by decide, by decide⟩
    | stop n => simp [solV1] at hl
  · intro i w hw
    cases i with
    | node n =>
      simp [solV1] at hw
      subst hw
      decide
    | start n =>
      cases n with
      | zero =>
        simp [solV1] at hw
        subst hw
        decide
      | succ m => simp [solV1] at hw
    | stop n =>
      simp [solV1] at hw
      subst hw
      decide

lemma solV0_validNext : ValidNext exData5 solV0 := by
  refine ⟨?_, ?_, ?_⟩
  · intro i w
    cases i with
    | node n => simp [solV0]
    | start n => cases n <;> simp [solV0]
    | stop n => simp [solV0]
  · intro i l hl
    cases i with
    | node n => simp [solV0] at hl
    | start n =>
      cases n with
      | zero =>
        simp [solV0] at hl
        subst hl
        exact ⟨by decide, by decide⟩
      | succ m => simp [solV0] at hl
    | stop n => simp [solV0] at hl
  · intro i w hw
    cases i with
    | node n =>
      simp [solV0] at hw
      subst hw
      decide
    | start n =>
      cases n with
      | zero => simp [solV0] at hw
      | succ m =>
        simp [solV0] at hw
        subst hw
        decide
    | stop n =>
      simp [solV0] at hw
      subst hw
      decide

lemma exSolTriv_validNext : ValidNext exDataTriv exSolTriv := by
  refine ⟨?_, ?_, ?_⟩
  · intro i w
    simp [exSolTriv]
  · intro i l hl
    simp [exSolTriv] at hl
  · intro i w hw
    simp [exSolTriv] at hw
    subst hw
    decide

/-! ### Claims -/

/-- C1: for every successful solve response, each included route's reported
distance equals the sum over consecutive pairs `(route[i], route[i+1])` of
`distance_matrix[route[i]][route[i+1]]`, and the reported `total_distance`
equals the sum of the `distance` fields of all included routes. -/
theorem C1_route_distance_totals (data : DataModel) (solver : Option Solution)
    (fuel : Nat) (out : SuccessOut)
    (h : solve_vrptw data solver fuel = SolveResult.success out) :
    (∀ r ∈ out.routes,
      r.distance = consecutiveArcSum data.distance_matrix r.route) ∧
    out.total_distance = (out.routes.map (fun r => r.distance)).sum := by
  cases solver with
  | none => exact SolveResult.noConfusion h
  | some sol =>
    obtain ⟨hroutes, hdist, _, _, _, _⟩ := solve_extract_success h
    refine ⟨?_, hdist⟩
    intro r hr
    rw [hroutes] at hr
    obtain ⟨v, hv, hsome⟩ := mem_extract_routes hr
    obtain ⟨_, _, _, _, hd, _, _⟩ := extractVehicle_some hsome
    rw [hd, routeDistance_eq_consecutiveArcSum]

/-- Witness for C1 at a concrete solved instance. -/
theorem C1_witness :
    solve_vrptw exData0 (some exSol0) 5 = SolveResult.success exOut0 ∧
    ((∀ r ∈ exOut0.routes,
        r.distance = consecutiveArcSum exData0.distance_matrix r.route) ∧
      exOut0.total_distance =
        (exOut0.routes.map (fun r => r.distance)).sum) :=
  ⟨by decide, C1_route_distance_totals exData0 (some exSol0) 5 exOut0 (by decide)⟩

/-- C3 as stated is false: the time callback adds the service time exactly
when the destination NODE is nonzero (`if t != 0`, line 50), not when it
differs from the `depot` input field.  With depot 1, arriving at node 0
gets no service time even though node 0 is a delivery location. -/
theorem C3_counterexample :
    ¬ (∀ (data : DataModel) (from_idx to_idx : Visit),
        time_callback data from_idx to_idx =
          (data.time_matrix.getD (toNode data.depot from_idx) []).getD
            (toNode data.depot to_idx) 0 +
          (if toNode data.depot to_idx ≠ data.depot then SERVICE_TIME_SECONDS
            else 0)) := by
  intro h
  have hx := h exData1 (Visit.start 0) (Visit.node 0)
  revert hx
  decide

/-- C3 amended: the time callback returns `time_matrix[from][to]` plus the
600-second service constant exactly when the destination node is not node
0; when the `depot` field is 0 (the convention of the spec's data model)
this is exactly "destination is not the depot". -/
theorem C3_amended_service_time (data : DataModel) (from_idx to_idx : Visit)
    (hdep : data.depot = 0) :
    time_callback data from_idx to_idx =
      (data.time_matrix.getD (toNode data.depot from_idx) []).getD
        (toNode data.depot to_idx) 0 +
      (if toNode data.depot to_idx ≠ data.depot then SERVICE_TIME_SECONDS
        else 0) := by
  unfold time_callback
  rw [hdep]
  by_cases ht : toNode 0 to_idx = 0 <;> simp [ht]

/-- Witness for the amended C3. -/
theorem C3_amended_witness :
    exData0.depot = 0 ∧
    time_callback exData0 (Visit.start 0) (Visit.node 1) =
      (exData0.time_matrix.getD (toNode exData0.depot (Visit.start 0)) []).getD
        (toNode exData0.depot (Visit.node 1)) 0 +
      (if toNode exData0.depot (Visit.node 1) ≠ exData0.depot then
          SERVICE_TIME_SECONDS
        else 0) :=
  ⟨rfl, C3_amended_service_time exData0 (Visit.start 0) (Visit.node 1) rfl⟩

/-- C4 as stated is false: the program performs no validation at all.  A
request whose time matrix is the wrong size, whose depot is out of range
and whose capacity is negative still passes the pre-solver phase without
any `InvalidProblemError`. -/
theorem C4_counterexample :
    ¬ (∀ input : InputData, BadProblem input →
        ∃ e, prepare input = Except.error e) := by
  intro h
  obtain ⟨e, he⟩ := h exBad (Or.inr (Or.inl (by decide)))
  exact Except.noConfusion he

/-- C4 amended: no validation is performed before solver construction.
`create_data_model` accepts every input — malformed ones included — and
passes its fields through unchanged, so shape mismatches reach the solver
construction and can only surface later as a caught exception. -/
theorem C4_amended_no_validation (input : InputData)
    (_hbad : BadProblem input) :
    prepare input = Except.ok (create_data_model input) ∧
    (create_data_model input).distance_matrix = input.distance_matrix ∧
    (create_data_model input).time_matrix = input.time_matrix ∧
    (create_data_model input).time_windows = input.time_windows ∧
    (create_data_model input).num_vehicles = input.num_vehicles ∧
    (create_data_model input).depot = input.depot :=
  ⟨rfl, rfl, rfl, rfl, rfl, rfl⟩

/-- Witness for the amended C4. -/
theorem C4_amended_witness :
    BadProblem exBad ∧
    (prepare exBad = Except.ok (create_data_model exBad) ∧
      (create_data_model exBad).distance_matrix = exBad.distance_matrix ∧
      (create_data_model exBad).time_matrix = exBad.time_matrix ∧
      (create_data_model exBad).time_windows = exBad.time_windows ∧
      (create_data_model exBad).num_vehicles = exBad.num_vehicles ∧
      (create_data_model exBad).depot = exBad.depot) :=
  ⟨Or.inr (Or.inl (by decide)),
    C4_amended_no_validation exBad (Or.inr (Or.inl (by decide)))⟩

/-- C5 as stated is false: lines 91-95 bound every vehicle's start and end
cumulative time by `time_windows[0]` — the window of node 0 — not by the
depot node's own window, and line 88's depot-row registration places the
depot's window on only the single start/end visit `NodeToIndex` yields,
not on every vehicle's start and end.  The first conjunct refutes the
claim; the second shows the refutation does not depend on which start/end
visit the depot row landed on: for EVERY resolution `a` there is an
assignment satisfying every registered bound (including the depot's
window on `a`) in which some vehicle returns outside the depot's own
window `[0, 700]` — the idle vehicle absorbs the aliased bound while the
other returns at 800. -/
theorem C5_counterexample :
    ¬ (∀ (data : DataModel) (sol : Solution) (a : Visit),
        StartEndVisit data a → TimeFeasible data a sol →
        data.depot < data.time_windows.length →
        ∀ v, v < data.num_vehicles →
          ((data.time_windows.getD data.depot (0, 0)).1 ≤
              sol.timeCumul (Visit.start v) ∧
            sol.timeCumul (Visit.start v) ≤
              (data.time_windows.getD data.depot (0, 0)).2 ∧
            (data.time_windows.getD data.depot (0, 0)).1 ≤
              sol.timeCumul (Visit.stop v) ∧
            sol.timeCumul (Visit.stop v) ≤
              (data.time_windows.getD data.depot (0, 0)).2)) ∧
    (∀ a, StartEndVisit exData5 a →
      ∃ sol, TimeFeasible exData5 a sol ∧
        ¬ (∀ v, v < exData5.num_vehicles →
          ((exData5.time_windows.getD exData5.depot (0, 0)).1 ≤
              sol.timeCumul (Visit.start v) ∧
            sol.timeCumul (Visit.start v) ≤
              (exData5.time_windows.getD exData5.depot (0, 0)).2 ∧
            (exData5.time_windows.getD exData5.depot (0, 0)).1 ≤
              sol.timeCumul (Visit.stop v) ∧
            sol.timeCumul (Visit.stop v) ≤
              (exData5.time_windows.getD exData5.depot (0, 0)).2))) := by
  constructor
  · intro h
    have hx := h exData5 solV1 (Visit.start 0) (by decide) (by decide)
      (by decide) 1 (by decide)
    revert hx
    decide
  · intro a ha
    cases a with
    | node n => exact False.elim ha
    | start w =>
      have hw : w < 2 := ha
      interval_cases w
      · exact ⟨solV1, by decide, by decide⟩
      · exact ⟨solV0, by decide, by decide⟩
    | stop w =>
      have hw : w < 2 := ha
      interval_cases w
      · exact ⟨solV1, by decide, by decide⟩
      · exact ⟨solV0, by decide, by decide⟩

/-- C5 amended: every vehicle's start and end cumulative time is bounded
by `time_windows[0]` (the depot's window lands, via line 88's depot-row
registration, on only one start/end visit); `time_windows[0]` is the
depot's own window exactly when the depot index is 0, in which case the
claim holds as stated, for every resolution of the depot-row
registration. -/
theorem C5_amended_start_end_window (data : DataModel) (sol : Solution)
    (a : Visit) (hdep : data.depot = 0) (_ha : StartEndVisit data a)
    (hfeas : TimeFeasible data a sol) :
    ∀ v, v < data.num_vehicles →
      ((data.time_windows.getD data.depot (0, 0)).1 ≤
          sol.timeCumul (Visit.start v) ∧
        sol.timeCumul (Visit.start v) ≤
          (data.time_windows.getD data.depot (0, 0)).2 ∧
        (data.time_windows.getD data.depot (0, 0)).1 ≤
          sol.timeCumul (Visit.stop v) ∧
        sol.timeCumul (Visit.stop v) ≤
          (data.time_windows.getD data.depot (0, 0)).2) := by
  intro v hv
  rw [hdep]
  exact hfeas.2.1 v hv

/-- Witness for the amended C5. -/
theorem C5_amended_witness :
    exData0.depot = 0 ∧ StartEndVisit exData0 (Visit.start 0) ∧
    TimeFeasible exData0 (Visit.start 0) exSol0 ∧
    (∀ v, v < exData0.num_vehicles →
      ((exData0.time_windows.getD exData0.depot (0, 0)).1 ≤
          exSol0.timeCumul (Visit.start v) ∧
        exSol0.timeCumul (Visit.start v) ≤
          (exData0.time_windows.getD exData0.depot (0, 0)).2 ∧
        (exData0.time_windows.getD exData0.depot (0, 0)).1 ≤
          exSol0.timeCumul (Visit.stop v) ∧
        exSol0.timeCumul (Visit.stop v) ≤
          (exData0.time_windows.getD exData0.depot (0, 0)).2)) :=
  ⟨rfl, by decide, by decide,
    C5_amended_start_end_window exData0 exSol0 (Visit.start 0) rfl
      (by decide) (by decide)⟩

/-- C7 as stated is false in its last part: the defaults are as claimed,
but the depot's demand entry is NOT ignored by the capacity accounting —
`demand_callback` (lines 58-61) returns `demands[node]` for every visit,
including the depot-aliased vehicle starts, so the default depot demand of
1 is charged when a vehicle departs. -/
theorem C7_counterexample :
    ¬ (∀ input : InputData,
        input.vehicle_capacities = none → input.demands = none →
        ((create_data_model input).vehicle_capacities =
            List.replicate input.num_vehicles 1000 ∧
          (create_data_model input).demands =
            List.replicate input.distance_matrix.length 1 ∧
          (∀ v, demand_callback (create_data_model input)
              (Visit.start v) = 0))) := by
  intro h
  have hx := (h exInput0 rfl rfl).2.2 0
  revert hx
  decide

/-- C7 amended: omitting the optional fields yields `vehicle_capacities`
of `num_vehicles` copies of 1000 and `demands` of N copies of 1, and the
demand callback charges the depot's (default 1) entry at every vehicle
start rather than treating it as 0. -/
theorem C7_amended_defaults (input : InputData)
    (hcap : input.vehicle_capacities = none) (hdem : input.demands = none)
    (hdep : input.depot < input.distance_matrix.length) :
    (create_data_model input).vehicle_capacities =
      List.replicate input.num_vehicles 1000 ∧
    (create_data_model input).demands =
      List.replicate input.distance_matrix.length 1 ∧
    (∀ v, demand_callback (create_data_model input) (Visit.start v) = 1) := by
  refine ⟨by simp [create_data_model, hcap], by simp [create_data_model, hdem], ?_⟩
  intro v
  unfold demand_callback toNode
  simp only [create_data_model, hdem, Option.getD_none]
  rw [List.getD_eq_getElem _ _ (by simpa using hdep)]
  simp

/-- C6 as stated is false: with only the depot, every vehicle's walk is at
most depot→depot, so zero routes are extracted and line 170 returns the
error response instead of the empty success response. -/
theorem C6_counterexample :
    ¬ (∀ (data : DataModel) (sol : Solution) (fuel : Nat),
        data.distance_matrix.length = 1 → data.depot = 0 →
        ValidNext data sol →
        solve_vrptw data (some sol) fuel =
          SolveResult.success
            { routes := [], total_distance := 0, total_time := 0,
              total_load := 0, num_vehicles_used := 0 }) := by
  intro h
  have hx := h exDataTriv exSolTriv 5 rfl rfl exSolTriv_validNext
  revert hx
  decide

/-- C6 amended: for every input with zero non-depot locations, any
assignment the solver can return yields the error response
"No routes found after solving" — not the empty success response —
regardless of the number of vehicles. -/
theorem C6_amended_trivial_problem (data : DataModel) (sol : Solution)
    (fuel : Nat) (hn : data.distance_matrix.length = 1)
    (hdep : data.depot = 0) (hval : ValidNext data sol) :
    solve_vrptw data (some sol) fuel = SolveResult.error errNoRoutes := by
  have hnone : ∀ v, extractVehicle data sol fuel v = none := by
    intro v
    by_cases hu : sol.next (Visit.start v) = Visit.stop v
    · unfold extractVehicle
      rw [if_pos hu]
    · obtain ⟨w, hw⟩ : ∃ w, sol.next (Visit.start v) = Visit.stop w := by
        cases hx : sol.next (Visit.start v) with
        | node l =>
          exfalso
          rcases hval.2.1 _ _ hx with ⟨hl1, hl2⟩
          rw [hn] at hl2
          rw [hdep] at hl1
          omega
        | start w => exact absurd hx (hval.1 _ _)
        | stop w => exact ⟨w, rfl⟩
      have hlen : (walkVisits sol fuel (Visit.start v)).length ≤ 2 := by
        cases fuel with
        | zero => simp [walkVisits]
        | succ fuel =>
          show (if isEnd (Visit.start v) then [Visit.start v]
              else Visit.start v ::
                walkVisits sol fuel (sol.next (Visit.start v))).length ≤ 2
          rw [if_neg (by simp [isEnd]), hw]
          cases fuel with
          | zero => simp [walkVisits]
          | succ fuel2 =>
            show (Visit.start v ::
              (if isEnd (Visit.stop w) then [Visit.stop w]
                else Visit.stop w ::
                  walkVisits sol fuel2 (sol.next (Visit.stop w)))).length ≤ 2
            rw [if_pos (by simp [isEnd])]
            simp
      unfold extractVehicle
      rw [if_neg hu]
      dsimp only
      rw [if_neg]
      simp only [List.length_map]
      omega
  have hempty : (List.range data.num_vehicles).filterMap
      (extractVehicle data sol fuel) = [] := by
    rw [List.filterMap_eq_nil_iff]
    intro v _
    exact hnone v
  show solve_extract data sol fuel = _
  unfold solve_extract
  dsimp only
  rw [hempty]
  rfl

/-- Witness for the amended C6 at the one-location, two-vehicle input. -/
theorem C6_amended_witness :
    exDataTriv.distance_matrix.length = 1 ∧ exDataTriv.depot = 0 ∧
    ValidNext exDataTriv exSolTriv ∧
    solve_vrptw exDataTriv (some exSolTriv) 5 =
      SolveResult.error errNoRoutes :=
  ⟨rfl, rfl, exSolTriv_validNext,
    C6_amended_trivial_problem exDataTriv exSolTriv 5 rfl rfl
      exSolTriv_validNext⟩

/-- C8: a vehicle whose walked route has length at most 2, or whose start
visit links directly to its end visit, contributes no route to the
response, and `num_vehicles_used` equals the number of routes included. -/
theorem C8_trivial_routes_skipped (data : DataModel) (sol : Solution)
    (fuel : Nat) (out : SuccessOut)
    (h : solve_vrptw data (some sol) fuel = SolveResult.success out) :
    out.num_vehicles_used = out.routes.length ∧
    (∀ v, v < data.num_vehicles →
      (sol.next (Visit.start v) = Visit.stop v ∨
        (walkVisits sol fuel (Visit.start v)).length ≤ 2) →
      ∀ r ∈ out.routes, r.vehicle_id ≠ v) := by
  obtain ⟨hroutes, _, _, _, hused, _⟩ := solve_extract_success h
  refine ⟨hused, ?_⟩
  intro v _ htriv r hr hid
  have hnone : extractVehicle data sol fuel v = none := by
    rcases htriv with hu | hlen
    · unfold extractVehicle
      rw [if_pos hu]
    · by_cases hu : sol.next (Visit.start v) = Visit.stop v
      · unfold extractVehicle
        rw [if_pos hu]
      · unfold extractVehicle
        rw [if_neg hu]
        dsimp only
        rw [if_neg]
        simp only [List.length_map]
        omega
  rw [hroutes] at hr
  obtain ⟨w, _, hsome⟩ := mem_extract_routes hr
  obtain ⟨hwid, _⟩ := extractVehicle_some hsome
  have hwv : w = v := by rw [← hwid, hid]
  rw [hwv, hnone] at hsome
  cases hsome

/-- Witness for C8 at a concrete solved instance. -/
theorem C8_witness :
    solve_vrptw exData0 (some exSol0) 5 = SolveResult.success exOut0 ∧
    (exOut0.num_vehicles_used = exOut0.routes.length ∧
      (∀ v, v < exData0.num_vehicles →
        (exSol0.next (Visit.start v) = Visit.stop v ∨
          (walkVisits exSol0 5 (Visit.start v)).length ≤ 2) →
        ∀ r ∈ exOut0.routes, r.vehicle_id ≠ v)) :=
  ⟨by decide, C8_trivial_routes_skipped exData0 exSol0 5 exOut0 (by decide)⟩

/-- C9: the response is the error "No feasible solution found." exactly
when the solver produced no assignment; it is the distinct error
"No routes found after solving" exactly when an assignment was produced
but zero non-trivial routes were extracted; and every success response
carries at least one route — no partial success is emitted. -/
theorem C9_error_taxonomy (data : DataModel) (solver : Option Solution)
    (fuel : Nat) :
    (solve_vrptw data solver fuel = SolveResult.error errNoFeasible ↔
      solver = none) ∧
    (solve_vrptw data solver fuel = SolveResult.error errNoRoutes ↔
      ∃ sol, solver = some sol ∧
        (List.range data.num_vehicles).filterMap
          (extractVehicle data sol fuel) = []) ∧
    (∀ out, solve_vrptw data solver fuel = SolveResult.success out →
      out.routes ≠ []) := by
  cases solver with
  | none =>
    refine ⟨by simp [solve_vrptw], ?_, ?_⟩
    · constructor
      · intro hx
        exfalso
        have hmsg : errNoFeasible = errNoRoutes := by
          have := hx
          unfold solve_vrptw at this
          injection this
        exact absurd hmsg (by decide)
      · rintro ⟨sol, hsol, -⟩
        cases hsol
    · intro out hx
      exact SolveResult.noConfusion hx
  | some sol =>
    by_cases hemp : (List.range data.num_vehicles).filterMap
        (extractVehicle data sol fuel) = []
    · have hres : solve_vrptw data (some sol) fuel =
          SolveResult.error errNoRoutes := by
        show solve_extract data sol fuel = _
        unfold solve_extract
        dsimp only
        rw [hemp]
        rfl
      refine ⟨?_, ?_, ?_⟩
      · rw [hres]
        constructor
        · intro hx
          exfalso
          have hmsg : errNoRoutes = errNoFeasible := by injection hx
          exact absurd hmsg (by decide)
        · intro hx
          cases hx
      · rw [hres]
        exact ⟨fun _ => ⟨sol, rfl, hemp⟩, fun _ => rfl⟩
      · intro out hx
        rw [hres] at hx
        exact SolveResult.noConfusion hx
    · have hres : solve_vrptw data (some sol) fuel =
          SolveResult.success
            { routes := (List.range data.num_vehicles).filterMap
                (extractVehicle data sol fuel)
              total_distance := (((List.range data.num_vehicles).filterMap
                (extractVehicle data sol fuel)).map
                  (fun r => r.distance)).sum
              total_time := (((List.range data.num_vehicles).filterMap
                (extractVehicle data sol fuel)).map (fun r => r.time)).sum
              total_load := (((List.range data.num_vehicles).filterMap
                (extractVehicle data sol fuel)).map (fun r => r.load)).sum
              num_vehicles_used := ((List.range data.num_vehicles).filterMap
                (extractVehicle data sol fuel)).length } := by
        show solve_extract data sol fuel = _
        unfold solve_extract
        dsimp only
        rw [if_neg (by simpa [List.isEmpty_iff] using hemp)]
      refine ⟨?_, ?_, ?_⟩
      · rw [hres]
        exact ⟨fun hx => SolveResult.noConfusion hx,
          fun hx => Option.noConfusion hx⟩
      · rw [hres]
        constructor
        · intro hx
          exact SolveResult.noConfusion hx
        · rintro ⟨sol2, hsol2, hnil⟩
          injection hsol2 with hsol2
          subst hsol2
          exact absurd hnil hemp
      · intro out hx
        rw [hres] at hx
        injection hx with hx
        subst hx
        exact hemp

/-- Witness for C9, instantiating the characterization at concrete
solver outcomes. -/
theorem C9_witness :
    ((solve_vrptw exData0 none 5 = SolveResult.error errNoFeasible ↔
        (none : Option Solution) = none) ∧
      (solve_vrptw exData0 none 5 = SolveResult.error errNoRoutes ↔
        ∃ sol, (none : Option Solution) = some sol ∧
          (List.range exData0.num_vehicles).filterMap
            (extractVehicle exData0 sol 5) = []) ∧
      (∀ out, solve_vrptw exData0 none 5 = SolveResult.success out →
        out.routes ≠ [])) :=
  C9_error_taxonomy exData0 none 5

/-- C2 as stated is false: an assignment can satisfy every bound the
source registers — the per-node windows of non-depot nodes, the
`time_windows[0]` start/end bounds of lines 91-95, AND the depot's own
window placed by line 88's depot-row registration on the single start/end
visit `NodeToIndex` yields — and still produce a response recording the
depot node outside its own configured window, because with depot 1 the
remaining start/end cumuls are bounded only by node 0's window.  The
first conjunct refutes the claim; the second shows the refutation holds
under EVERY resolution `a` of the depot-row registration: the idle
vehicle's cumuls (all 0) absorb the aliased depot-window bound, while the
other vehicle's recorded return at 800 breaches the depot's closing time
700. -/
theorem C2_counterexample :
    ¬ (∀ (data : DataModel) (sol : Solution) (a : Visit) (fuel : Nat)
        (out : SuccessOut),
        data.time_windows.length = data.distance_matrix.length →
        StartEndVisit data a → TimeFeasible data a sol →
        ValidNext data sol →
        solve_vrptw data (some sol) fuel = SolveResult.success out →
        InWindows data out) ∧
    (∀ a, StartEndVisit exData5 a →
      ∃ sol out, TimeFeasible exData5 a sol ∧ ValidNext exData5 sol ∧
        solve_vrptw exData5 (some sol) 5 = SolveResult.success out ∧
        ¬ InWindows exData5 out) := by
  constructor
  · intro h
    have hx := h exData5 solV1 (Visit.start 0) 5 outV1 rfl (by decide)
      (by decide) solV1_validNext (by decide)
    revert hx
    decide
  · intro a ha
    cases a with
    | node n => exact False.elim ha
    | start w =>
      have hw : w < 2 := ha
      interval_cases w
      · exact ⟨solV1, outV1, by decide, solV1_validNext, by decide, by decide⟩
      · exact ⟨solV0, outV0, by decide, solV0_validNext, by decide, by decide⟩
    | stop w =>
      have hw : w < 2 := ha
      interval_cases w
      · exact ⟨solV1, outV1, by decide, solV1_validNext, by decide, by decide⟩
      · exact ⟨solV0, outV0, by decide, solV0_validNext, by decide, by decide⟩

/-- C2 amended: when the depot index is 0 (so that the start/end bounds of
lines 91-95, taken from `time_windows[0]`, are the depot's own window),
every node recorded in any route of a successful response has its recorded
arrival time inside that node's configured window, inclusive — for every
resolution of line 88's depot-row registration. -/
theorem C2_amended_in_windows (data : DataModel) (sol : Solution)
    (a : Visit) (fuel : Nat) (out : SuccessOut) (hdep : data.depot = 0)
    (hwf : data.time_windows.length = data.distance_matrix.length)
    (_ha : StartEndVisit data a)
    (hfeas : TimeFeasible data a sol) (hval : ValidNext data sol)
    (h : solve_vrptw data (some sol) fuel = SolveResult.success out) :
    InWindows data out := by
  obtain ⟨hroutes, _, _, _, _, _⟩ := solve_extract_success h
  intro r hr i hi
  rw [hroutes] at hr
  obtain ⟨v, hv, hsome⟩ := mem_extract_routes hr
  obtain ⟨_, hroute, _, harr, _, _, _⟩ := extractVehicle_some hsome
  have hiv : i < (walkVisits sol fuel (Visit.start v)).length := by
    have := hi
    rw [hroute, List.length_map] at this
    exact this
  have hi2 : i < r.arrival_times.length := by
    rw [harr, List.length_map]
    exact hiv
  have hr1 : r.route.getD i 0 =
      toNode data.depot (walkVisits sol fuel (Visit.start v))[i] := by
    rw [List.getD_eq_getElem _ _ hi]
    simp only [hroute, List.getElem_map]
  have hr2 : r.arrival_times.getD i 0 =
      sol.timeCumul (walkVisits sol fuel (Visit.start v))[i] := by
    rw [List.getD_eq_getElem _ _ hi2]
    simp only [harr, List.getElem_map]
  have hmem : (walkVisits sol fuel (Visit.start v))[i] ∈
      walkVisits sol fuel (Visit.start v) := List.getElem_mem hiv
  rw [hr1, hr2]
  rcases mem_walkVisits hmem with hx | ⟨y, hy⟩
  · rw [hx]
    simp only [toNode]
    rw [hdep]
    have hb := hfeas.2.1 v hv
    exact ⟨hb.1, hb.2.1⟩
  · rw [hy]
    cases hnext : sol.next y with
    | node l =>
      rcases hval.2.1 _ _ hnext with ⟨hl1, hl2⟩
      have hl3 : l < data.time_windows.length := by
        rw [hwf]
        exact hl2
      simp only [toNode]
      exact hfeas.1 l hl3 hl1
    | start w => exact absurd hnext (hval.1 _ _)
    | stop w =>
      have hw := hval.2.2 _ _ hnext
      simp only [toNode]
      rw [hdep]
      have hb := hfeas.2.1 w hw
      exact ⟨hb.2.2.1, hb.2.2.2⟩

/-- Witness for the amended C2 at a depot-0 instance. -/
theorem C2_amended_witness :
    exData0.depot = 0 ∧
    exData0.time_windows.length = exData0.distance_matrix.length ∧
    StartEndVisit exData0 (Visit.start 0) ∧
    TimeFeasible exData0 (Visit.start 0) exSol0 ∧
    ValidNext exData0 exSol0 ∧
    solve_vrptw exData0 (some exSol0) 5 = SolveResult.success exOut0 ∧
    InWindows exData0 exOut0 :=
  ⟨rfl, rfl, by decide, by decide, exSol0_validNext, by decide,
    C2_amended_in_windows exData0 exSol0 (Visit.start 0) 5 exOut0 rfl rfl
      (by decide) (by decide) exSol0_validNext (by decide)⟩

/-- C10: in every successful response, each route's `arrival_times`,
`loads` and `route` sequences have equal length, and its `time` field
equals the last recorded arrival time minus the first (the start and end
cumulative-time readouts of lines 148-150 are exactly the first and last
recorded arrival times, for any complete assignment whose vehicle paths
terminate at their own end visit). -/
theorem C10_route_fields_consistent (data : DataModel) (sol : Solution)
    (fuel : Nat) (out : SuccessOut)
    (hterm : ∀ v, v < data.num_vehicles →
      (walkVisits sol fuel (Visit.start v)).getLast? = some (Visit.stop v))
    (h : solve_vrptw data (some sol) fuel = SolveResult.success out) :
    ∀ r ∈ out.routes,
      r.route.length = r.loads.length ∧
      r.route.length = r.arrival_times.length ∧
      r.time = r.arrival_times.getLastD 0 - r.arrival_times.headD 0 := by
  obtain ⟨hroutes, _, _, _, _, _⟩ := solve_extract_success h
  intro r hr
  rw [hroutes] at hr
  obtain ⟨v, hv, hsome⟩ := mem_extract_routes hr
  obtain ⟨_, hroute, hloads, harr, _, htime, _⟩ := extractVehicle_some hsome
  refine ⟨?_, ?_, ?_⟩
  · rw [hroute, hloads, List.length_map, List.length_map]
  · rw [hroute, harr, List.length_map, List.length_map]
  · rw [htime, harr]
    rw [walkVisits_map_last sol.timeCumul (hterm v hv)]
    rw [walkVisits_map_head]

/-- Witness for C10 at a concrete solved instance. -/
theorem C10_witness :
    (∀ v, v < exData0.num_vehicles →
      (walkVisits exSol0 5 (Visit.start v)).getLast? =
        some (Visit.stop v)) ∧
    solve_vrptw exData0 (some exSol0) 5 = SolveResult.success exOut0 ∧
    (∀ r ∈ exOut0.routes,
      r.route.length = r.loads.length ∧
      r.route.length = r.arrival_times.length ∧
      r.time = r.arrival_times.getLastD 0 - r.arrival_times.headD 0) :=
  ⟨by decide, by decide,
    C10_route_fields_consistent exData0 exSol0 5 exOut0 (by decide)
      (by decide)⟩

/-- Witness for the amended C7. -/
theorem C7_amended_witness :
    exInput0.vehicle_capacities = none ∧ exInput0.demands = none ∧
    exInput0.depot < exInput0.distance_matrix.length ∧
    ((create_data_model exInput0).vehicle_capacities =
        List.replicate exInput0.num_vehicles 1000 ∧
      (create_data_model exInput0).demands =
        List.replicate exInput0.distance_matrix.length 1 ∧
      (∀ v, demand_callback (create_data_model exInput0)
          (Visit.start v) = 1)) :=
  ⟨rfl, rfl, by decide, C7_amended_defaults exInput0 rfl rfl (by decide)⟩

end VRPTW
